import Mathlib

/-
Shallow embedding of include/intrusive_ptr.h: an intrusive reference-counted
smart pointer. Objects live in an explicit heap indexed by addresses; a
pointer value is a nullable address slot. Every member function of the C++
class that can touch the program state is modelled as an explicit
state-passing function on the heap, so that frame properties (the heap is
returned unchanged) are genuine statements about the definitions.
-/

/-- A memory address. Raw pointers `T*` are modelled as `Option Addr`
(`none` is `nullptr`). -/
abbrev Addr : Type := Nat

/-- An allocated object deriving from `RefCountObject`: the embedded
`uint32_t m_ref_count` counter (kept below `2^32`) plus the derived-class
data, modelled after the test suite type `Object { int Value; }`. -/
structure Obj where
  m_ref_count : Nat
  value : Int
deriving DecidableEq, Repr

/-- `RefCountObject::ReferenceCount()`: read-only access to the counter. -/
def Obj.ReferenceCount (o : Obj) : Nat := o.m_ref_count

/-- Constructing a fresh object: `m_ref_count { 0 }` is the in-class default
initializer of `RefCountObject`, so the counter starts at 0. -/
def Obj.new (v : Int) : Obj := { m_ref_count := 0, value := v }

/-- The program heap: which objects are currently allocated, and their state.
`delete` removes an address from the heap. -/
abbrev Heap : Type := Addr → Option Obj

/-- Overwrite the object stored at address `a`. -/
def Heap.update (h : Heap) (a : Addr) (o : Obj) : Heap :=
  fun x => if x = a then some o else h x

/-- `delete` the object at address `a`. -/
def Heap.erase (h : Heap) (a : Addr) : Heap :=
  fun x => if x = a then none else h x

/-- `2^32`: the modulus of the `uint32_t` counter arithmetic. -/
def UINT32_MOD : Nat := 4294967296

/-- `intrusive_ptr_add_ref(ptr)`: `++(ptr->m_ref_count)`, a plain `uint32_t`
pre-increment. Dereferencing a dangling pointer is undefined behaviour in the
source; the `none` branch is never reached under the validity hypotheses of
the theorems below. -/
def intrusive_ptr_add_ref (h : Heap) (a : Addr) : Heap :=
  match h a with
  | some o => h.update a { o with m_ref_count := (o.m_ref_count + 1) % UINT32_MOD }
  | none => h

/-- `intrusive_ptr_release(ptr)`: `if (--(ptr->m_ref_count) == 0) delete ...`.
The pre-decrement is `uint32_t` arithmetic; when the decremented value is 0
the object is destroyed through its most-derived type (removed from the
heap). -/
def intrusive_ptr_release (h : Heap) (a : Addr) : Heap :=
  match h a with
  | some o =>
    if (o.m_ref_count + (UINT32_MOD - 1)) % UINT32_MOD = 0 then
      h.erase a
    else
      h.update a { o with m_ref_count := (o.m_ref_count + (UINT32_MOD - 1)) % UINT32_MOD }
  | none => h

/-- `intrusive_ptr<T>`: the ownership slot `T* m_pointer`. -/
structure intrusive_ptr where
  m_pointer : Option Addr
deriving DecidableEq, Repr

namespace intrusive_ptr

/-- The default constructor `intrusive_ptr() : m_pointer(nullptr)`. -/
def empty_ctor : intrusive_ptr := ⟨none⟩

/-- `get()`: read-only access to the slot, no heap effect. -/
def get (self : intrusive_ptr) : Option Addr := self.m_pointer

/-- The private member `set(ptr, add_ref)`:
`m_pointer = ptr; if (ptr && add_ref) intrusive_ptr_add_ref(m_pointer);`.
Returns the constructed slot together with the updated heap. -/
def set (h : Heap) (ptr : Option Addr) (add_ref : Bool) : intrusive_ptr × Heap :=
  match ptr, add_ref with
  | some a, true => (⟨some a⟩, intrusive_ptr_add_ref h a)
  | _, _ => (⟨ptr⟩, h)

/-- The raw-pointer constructor `intrusive_ptr(T* ptr, bool add_ref = true)`,
whose body is `set(ptr, add_ref)`. -/
def raw_ctor (h : Heap) (ptr : Option Addr) (add_ref : Bool) : intrusive_ptr × Heap :=
  set h ptr add_ref

/-- The copy constructor `intrusive_ptr(const intrusive_ptr& other)`, whose
body is `set(other.get(), true)`. -/
def copy_ctor (h : Heap) (other : intrusive_ptr) : intrusive_ptr × Heap :=
  set h other.get true

/-- `detach()`: `auto ptr = m_pointer; if (ptr) m_pointer = nullptr; return ptr;`.
The member does not touch any counter, so the heap is returned unchanged.
Result: (returned raw pointer, the pointer after the call, the heap). -/
def detach (self : intrusive_ptr) (h : Heap) : Option Addr × intrusive_ptr × Heap :=
  match self.m_pointer with
  | some a => (some a, ⟨none⟩, h)
  | none => (none, self, h)

/-- The move constructor `intrusive_ptr(intrusive_ptr&& other) : m_pointer(other.detach())`.
Result: (the new pointer, the moved-from pointer, the heap). -/
def move_ctor (other : intrusive_ptr) (h : Heap) : intrusive_ptr × intrusive_ptr × Heap :=
  match other.detach h with
  | (p, other2, h2) => (⟨p⟩, other2, h2)

/-- The destructor: `if (m_pointer != nullptr) intrusive_ptr_release(m_pointer);`. -/
def dtor (self : intrusive_ptr) (h : Heap) : Heap :=
  match self.m_pointer with
  | some a => intrusive_ptr_release h a
  | none => h

/-- The copy assignment `operator=(const intrusive_ptr& other)`. The flag
`same_instance` models the identity test `this == &other` (Lean values have
no address, so instance identity is passed explicitly; when it is `true` the
caller passes `other = self`). In the distinct-instance branch the source
does only `m_pointer = other.get()`: it neither calls
`intrusive_ptr_add_ref` on the new reference nor `intrusive_ptr_release` on
the old one, so the heap is returned unchanged. -/
def copy_assign (self other : intrusive_ptr) (same_instance : Bool) (h : Heap) :
    intrusive_ptr × Heap :=
  if same_instance then (self, h)
  else (⟨other.get⟩, h)

/-- The move assignment `operator=(intrusive_ptr&& other)`. After the
identity test the source line is `m_pointer = std::move(other);`, which is
ill-formed C++ (`intrusive_ptr` has no conversion to `T*`); we model its
evident intent, transferring the raw pointer out of `other` exactly as the
move constructor does. Under any reading the body contains no call to
`intrusive_ptr_release`, so the destination previously held reference is
never released and the heap is returned unchanged. Result: (the assigned-to
pointer, the moved-from pointer, the heap). -/
def move_assign (self other : intrusive_ptr) (same_instance : Bool) (h : Heap) :
    intrusive_ptr × intrusive_ptr × Heap :=
  if same_instance then (self, other, h)
  else
    match other.detach h with
    | (p, other2, h2) => (⟨p⟩, other2, h2)

/-- `operator==`: `m_pointer == other.get()`, raw-pointer identity. -/
def beq (self other : intrusive_ptr) : Bool :=
  self.m_pointer == other.get

/-- `operator!=`: `!(*this == other)`. -/
def bne (self other : intrusive_ptr) : Bool :=
  !(self.beq other)

/-- `reset(ptr, add_ref = true)`:
`auto old_ptr = m_pointer; set(ptr, add_ref); if (old_ptr) intrusive_ptr_release(old_ptr);`
— acquire first, release the previously held reference afterwards. -/
def reset (self : intrusive_ptr) (h : Heap) (ptr : Option Addr) (add_ref : Bool) :
    intrusive_ptr × Heap :=
  match self.m_pointer, set h ptr add_ref with
  | some a, (p2, h2) => (p2, intrusive_ptr_release h2 a)
  | none, (p2, h2) => (p2, h2)

/-- `swap(other)`: the source executes `std::swap(*m_pointer, *other.get())`,
a value swap of the two pointee objects (including their embedded counters,
since the implicitly generated assignment operators copy the
`RefCountObject` subobject). Neither `m_pointer` slot is modified.
Dereferencing a null or dangling pointer is undefined behaviour in the
source; those branches return the state unchanged and are never reached
under the hypotheses of the theorems below. Result: (self after, other
after, heap after). -/
def swap (self other : intrusive_ptr) (h : Heap) : intrusive_ptr × intrusive_ptr × Heap :=
  match self.m_pointer, other.get with
  | some a, some b =>
    match h a, h b with
    | some oa, some ob => (self, other, (h.update a ob).update b oa)
    | _, _ => (self, other, h)
  | _, _ => (self, other, h)

/-- `use_count()`: `m_pointer != nullptr ? m_pointer->ReferenceCount() : 0`.
The dangling-pointer branch is undefined behaviour in the source and never
reached under the validity hypotheses of the theorems below. -/
def use_count (self : intrusive_ptr) (h : Heap) : Nat :=
  match self.m_pointer with
  | some a =>
    match h a with
    | some o => o.ReferenceCount
    | none => 0
  | none => 0

end intrusive_ptr

/- Helper lemmas about the heap and the uint32 counter arithmetic. -/

lemma Heap.update_self (h : Heap) (a : Addr) (o : Obj) : h.update a o a = some o := by
  simp [Heap.update]

lemma Heap.update_other (h : Heap) (a x : Addr) (o : Obj) (hx : x ≠ a) :
    h.update a o x = h x := by
  simp [Heap.update, hx]

lemma Heap.erase_self (h : Heap) (a : Addr) : h.erase a a = none := by
  simp [Heap.erase]

lemma Heap.erase_other (h : Heap) (a x : Addr) (hx : x ≠ a) : h.erase a x = h x := by
  simp [Heap.erase, hx]

lemma dec_mod (c : Nat) (h1 : 0 < c) (h2 : c < UINT32_MOD) :
    (c + (UINT32_MOD - 1)) % UINT32_MOD = c - 1 := by
  have he : c + (UINT32_MOD - 1) = (c - 1) + UINT32_MOD := by
    simp only [UINT32_MOD]; omega
  have hlt : c - 1 < UINT32_MOD := by omega
  rw [he, Nat.add_mod_right, Nat.mod_eq_of_lt hlt]

lemma add_ref_result (h : Heap) (a : Addr) (o : Obj) (ha : h a = some o)
    (hov : o.m_ref_count + 1 < UINT32_MOD) :
    intrusive_ptr_add_ref h a = h.update a { o with m_ref_count := o.m_ref_count + 1 } := by
  simp only [intrusive_ptr_add_ref, ha, Nat.mod_eq_of_lt hov]

lemma release_result (h : Heap) (a : Addr) (o : Obj) (ha : h a = some o)
    (h1 : 0 < o.m_ref_count) (h2 : o.m_ref_count < UINT32_MOD) :
    intrusive_ptr_release h a =
      if o.m_ref_count = 1 then h.erase a
      else h.update a { o with m_ref_count := o.m_ref_count - 1 } := by
  have hm := dec_mod o.m_ref_count h1 h2
  simp only [intrusive_ptr_release, ha, hm]
  by_cases hc : o.m_ref_count = 1
  · simp [hc]
  · have hz : ¬ (o.m_ref_count - 1 = 0) := by omega
    simp [hc, hz]

/- Concrete heaps used by the witnesses and failing-input evaluations. -/

/-- A heap holding an object at address 0 (counter 1, value 18) and an
object at address 1 (counter 2, value 81). -/
def heapAB : Heap :=
  fun x =>
    if x = 0 then some { m_ref_count := 1, value := 18 }
    else if x = 1 then some { m_ref_count := 2, value := 81 }
    else none

/-- A heap holding two distinct objects with identical internal data
(counter 1, value 40, at addresses 0 and 1), as in the ComparePtr test. -/
def heap40 : Heap :=
  fun x =>
    if x = 0 then some { m_ref_count := 1, value := 40 }
    else if x = 1 then some { m_ref_count := 1, value := 40 }
    else none

/-- C5: for every object, the reference counter is initialized to 0 at
construction; intrusive_ptr_add_ref increments the counter by exactly 1;
intrusive_ptr_release decrements it by exactly 1 and destroys the object
(removes it from the heap, through the most-derived type) if and only if
the decremented value is 0. -/
theorem C5_counter_ops (v : Int) (h : Heap) (a : Addr) (o : Obj)
    (ha : h a = some o) (hov : o.m_ref_count + 1 < UINT32_MOD)
    (hpos : 0 < o.m_ref_count) :
    (Obj.new v).m_ref_count = 0
    ∧ intrusive_ptr_add_ref h a a = some { o with m_ref_count := o.m_ref_count + 1 }
    ∧ (o.m_ref_count = 1 → intrusive_ptr_release h a a = none)
    ∧ (1 < o.m_ref_count →
        intrusive_ptr_release h a a = some { o with m_ref_count := o.m_ref_count - 1 }) := by
  refine ⟨rfl, ?_, ?_, ?_⟩
  · rw [add_ref_result h a o ha hov, Heap.update_self]
  · intro hc
    rw [release_result h a o ha hpos (by omega), if_pos hc, Heap.erase_self]
  · intro hc
    rw [release_result h a o ha hpos (by omega), if_neg (by omega), Heap.update_self]

/-- Witness for C5 at the concrete heap heapAB: the object at address 0 has
counter 1, so add_ref takes it to 2, and release destroys it; construction
starts the counter at 0. -/
theorem C5_counter_ops_witness :
    (Obj.new 5).m_ref_count = 0
    ∧ intrusive_ptr_add_ref heapAB 0 0 = some { m_ref_count := 2, value := 18 }
    ∧ ((1:Nat) = 1 → intrusive_ptr_release heapAB 0 0 = none)
    ∧ ((1:Nat) < 1 → intrusive_ptr_release heapAB 0 0 = some { m_ref_count := 0, value := 18 }) :=
  C5_counter_ops 5 heapAB 0 { m_ref_count := 1, value := 18 } rfl (by decide) (by decide)

lemma reset_eq (self : intrusive_ptr) (h : Heap) (a b : Addr)
    (hs : self.m_pointer = some a) :
    self.reset h (some b) true
      = (⟨some b⟩, intrusive_ptr_release (intrusive_ptr_add_ref h b) a) := by
  simp [intrusive_ptr.reset, hs, intrusive_ptr.set]

/-- C4: on a pointer holding object A at address a, reset to object B at
address b with the default increment acquires B first (storing b and
incrementing the counter of B) and releases A afterwards: the resulting
slot is b, the use count reflects the counter of B including the share of
this pointer, and the counter of A drops by exactly 1, destroying A iff
that was the last reference; when B is the same object as A the net counter
is unchanged and the object survives even from counter 1. -/
theorem C4_reset_acquire_then_release (self : intrusive_ptr) (h : Heap) (a b : Addr)
    (oa ob : Obj) (hs : self.m_pointer = some a) (ha : h a = some oa)
    (hb : h b = some ob) (hpos : 0 < oa.m_ref_count)
    (hova : oa.m_ref_count < UINT32_MOD) (hovb : ob.m_ref_count + 1 < UINT32_MOD) :
    (self.reset h (some b) true).1.m_pointer = some b
    ∧ (a ≠ b →
        (self.reset h (some b) true).2 b
            = some { ob with m_ref_count := ob.m_ref_count + 1 }
        ∧ (oa.m_ref_count = 1 → (self.reset h (some b) true).2 a = none)
        ∧ (1 < oa.m_ref_count →
            (self.reset h (some b) true).2 a
              = some { oa with m_ref_count := oa.m_ref_count - 1 })
        ∧ (self.reset h (some b) true).1.use_count (self.reset h (some b) true).2
            = ob.m_ref_count + 1)
    ∧ (a = b →
        (self.reset h (some b) true).2 a = some oa
        ∧ (self.reset h (some b) true).1.use_count (self.reset h (some b) true).2
            = oa.m_ref_count) := by
  have hred := reset_eq self h a b hs
  refine ⟨by rw [hred], ?_, ?_⟩
  · intro hab
    have hadd := add_ref_result h b ob hb hovb
    have ha2 : intrusive_ptr_add_ref h b a = some oa := by
      rw [hadd, Heap.update_other _ _ _ _ hab]; exact ha
    have hrel := release_result (intrusive_ptr_add_ref h b) a oa ha2 hpos hova
    have hhb : intrusive_ptr_release (intrusive_ptr_add_ref h b) a b
        = some { ob with m_ref_count := ob.m_ref_count + 1 } := by
      rw [hrel]
      by_cases hc : oa.m_ref_count = 1
      · rw [if_pos hc, Heap.erase_other _ _ _ (Ne.symm hab), hadd, Heap.update_self]
      · rw [if_neg hc, Heap.update_other _ _ _ _ (Ne.symm hab), hadd, Heap.update_self]
    refine ⟨?_, ?_, ?_, ?_⟩
    · rw [hred]; exact hhb
    · intro hc
      rw [hred]
      show intrusive_ptr_release (intrusive_ptr_add_ref h b) a a = none
      rw [hrel, if_pos hc, Heap.erase_self]
    · intro hc
      rw [hred]
      show intrusive_ptr_release (intrusive_ptr_add_ref h b) a a = _
      rw [hrel, if_neg (by omega), Heap.update_self]
    · rw [hred]
      simp [intrusive_ptr.use_count, hhb, Obj.ReferenceCount]
  · intro hab
    subst hab
    rw [ha] at hb
    injection hb with hoab
    subst hoab
    have hadd := add_ref_result h a oa ha hovb
    have ha2 : intrusive_ptr_add_ref h a a
        = some { oa with m_ref_count := oa.m_ref_count + 1 } := by
      rw [hadd, Heap.update_self]
    have hrel := release_result (intrusive_ptr_add_ref h a) a
        { oa with m_ref_count := oa.m_ref_count + 1 } ha2 (Nat.succ_pos _) hovb
    have hcond : ¬ (({ oa with m_ref_count := oa.m_ref_count + 1 } : Obj).m_ref_count = 1) := by
      simp only []
      omega
    have hha : intrusive_ptr_release (intrusive_ptr_add_ref h a) a a = some oa := by
      rw [hrel, if_neg hcond, Heap.update_self]
      simp
    refine ⟨?_, ?_⟩
    · rw [hred]; exact hha
    · rw [hred]
      simp [intrusive_ptr.use_count, hha, Obj.ReferenceCount]

/-- Witness for C4: a pointer holding the object at address 0 (counter 1) of
heapAB, reset to address 1 (counter 2): afterwards the counter at address 1
is 3 and the object at address 0 was destroyed. -/
theorem C4_reset_witness :
    ((⟨some 0⟩ : intrusive_ptr).reset heapAB (some 1) true).2 1
      = some { m_ref_count := 3, value := 81 }
    ∧ ((⟨some 0⟩ : intrusive_ptr).reset heapAB (some 1) true).2 0 = none :=
  ⟨((C4_reset_acquire_then_release ⟨some 0⟩ heapAB 0 1 { m_ref_count := 1, value := 18 }
        { m_ref_count := 2, value := 81 } rfl rfl rfl (by decide) (by decide)
        (by decide)).2.1 (by decide)).1,
    ((C4_reset_acquire_then_release ⟨some 0⟩ heapAB 0 1 { m_ref_count := 1, value := 18 }
        { m_ref_count := 2, value := 81 } rfl rfl rfl (by decide) (by decide)
        (by decide)).2.1 (by decide)).2.1 rfl⟩

/-- C6: detach on a pointer holding a non-null reference returns that raw
reference, leaves the pointer empty (slot null, use count 0), and returns
the heap unchanged: the referenced object keeps its counter. -/
theorem C6_detach_keeps_counter (self : intrusive_ptr) (h : Heap) (a : Addr) (o : Obj)
    (hs : self.m_pointer = some a) (ha : h a = some o) :
    (self.detach h).1 = some a
    ∧ (self.detach h).2.1.m_pointer = none
    ∧ (self.detach h).2.2 = h
    ∧ (self.detach h).2.2 a = some o
    ∧ (self.detach h).2.1.use_count (self.detach h).2.2 = 0 := by
  simp [intrusive_ptr.detach, hs, intrusive_ptr.use_count, ha]

/-- Witness for C6: detaching from a pointer holding the solely owned object
at address 0 of heapAB leaves the counter at 1. -/
theorem C6_detach_witness :
    ((⟨some 0⟩ : intrusive_ptr).detach heapAB).1 = some 0
    ∧ ((⟨some 0⟩ : intrusive_ptr).detach heapAB).2.1.m_pointer = none
    ∧ ((⟨some 0⟩ : intrusive_ptr).detach heapAB).2.2 = heapAB
    ∧ ((⟨some 0⟩ : intrusive_ptr).detach heapAB).2.2 0
        = some { m_ref_count := 1, value := 18 }
    ∧ ((⟨some 0⟩ : intrusive_ptr).detach heapAB).2.1.use_count
        ((⟨some 0⟩ : intrusive_ptr).detach heapAB).2.2 = 0 :=
  C6_detach_keeps_counter ⟨some 0⟩ heapAB 0 { m_ref_count := 1, value := 18 } rfl rfl

/-- C7: move construction from a pointer holding an object transfers the raw
reference to the new pointer, empties the source, and returns the heap
unchanged: the counter of the referenced object is neither incremented nor
decremented. -/
theorem C7_move_ctor_transfers (other : intrusive_ptr) (h : Heap) (a : Addr) (o : Obj)
    (hs : other.m_pointer = some a) (ha : h a = some o) :
    (intrusive_ptr.move_ctor other h).1.m_pointer = some a
    ∧ (intrusive_ptr.move_ctor other h).2.1.m_pointer = none
    ∧ (intrusive_ptr.move_ctor other h).2.2 = h
    ∧ (intrusive_ptr.move_ctor other h).2.2 a = some o
    ∧ (intrusive_ptr.move_ctor other h).1.use_count (intrusive_ptr.move_ctor other h).2.2
        = o.m_ref_count := by
  simp [intrusive_ptr.move_ctor, intrusive_ptr.detach, hs, intrusive_ptr.use_count, ha,
    Obj.ReferenceCount]

/-- Witness for C7: moving from a pointer holding the object at address 0 of
heapAB with counter 1 keeps the counter at 1 and empties the source. -/
theorem C7_move_ctor_witness :
    (intrusive_ptr.move_ctor ⟨some 0⟩ heapAB).1.m_pointer = some 0
    ∧ (intrusive_ptr.move_ctor ⟨some 0⟩ heapAB).2.1.m_pointer = none
    ∧ (intrusive_ptr.move_ctor ⟨some 0⟩ heapAB).2.2 = heapAB
    ∧ (intrusive_ptr.move_ctor ⟨some 0⟩ heapAB).2.2 0
        = some { m_ref_count := 1, value := 18 }
    ∧ (intrusive_ptr.move_ctor ⟨some 0⟩ heapAB).1.use_count
        (intrusive_ptr.move_ctor ⟨some 0⟩ heapAB).2.2 = 1 :=
  C7_move_ctor_transfers ⟨some 0⟩ heapAB 0 { m_ref_count := 1, value := 18 } rfl rfl

/-- C8: copy construction from a pointer holding a non-null reference with
counter n yields the same raw reference in the copy and use count n + 1
observed through both the original and the copy. -/
theorem C8_copy_ctor_shares (other : intrusive_ptr) (h : Heap) (a : Addr) (o : Obj)
    (hs : other.m_pointer = some a) (ha : h a = some o)
    (hov : o.m_ref_count + 1 < UINT32_MOD) :
    (intrusive_ptr.copy_ctor h other).1.m_pointer = some a
    ∧ (intrusive_ptr.copy_ctor h other).1.get = other.get
    ∧ (intrusive_ptr.copy_ctor h other).1.use_count (intrusive_ptr.copy_ctor h other).2
        = o.m_ref_count + 1
    ∧ other.use_count (intrusive_ptr.copy_ctor h other).2 = o.m_ref_count + 1 := by
  have hred : intrusive_ptr.copy_ctor h other = (⟨some a⟩, intrusive_ptr_add_ref h a) := by
    simp [intrusive_ptr.copy_ctor, intrusive_ptr.get, hs, intrusive_ptr.set]
  have hup : intrusive_ptr_add_ref h a a
      = some { o with m_ref_count := o.m_ref_count + 1 } := by
    rw [add_ref_result h a o ha hov, Heap.update_self]
  rw [hred]
  refine ⟨rfl, ?_, ?_, ?_⟩
  · simp [intrusive_ptr.get, hs]
  · simp [intrusive_ptr.use_count, hup, Obj.ReferenceCount]
  · simp [intrusive_ptr.use_count, hs, hup, Obj.ReferenceCount]

/-- Witness for C8: copying a pointer holding the object at address 0 of
heapAB (counter 1) yields use count 2 through both pointers. -/
theorem C8_copy_ctor_witness :
    (intrusive_ptr.copy_ctor heapAB ⟨some 0⟩).1.m_pointer = some 0
    ∧ (intrusive_ptr.copy_ctor heapAB ⟨some 0⟩).1.get = intrusive_ptr.get ⟨some 0⟩
    ∧ (intrusive_ptr.copy_ctor heapAB ⟨some 0⟩).1.use_count
        (intrusive_ptr.copy_ctor heapAB ⟨some 0⟩).2 = 2
    ∧ intrusive_ptr.use_count ⟨some 0⟩ (intrusive_ptr.copy_ctor heapAB ⟨some 0⟩).2 = 2 :=
  C8_copy_ctor_shares ⟨some 0⟩ heapAB 0 { m_ref_count := 1, value := 18 } rfl rfl (by decide)

lemma copy_ctor_fst (h : Heap) (src : intrusive_ptr) :
    (intrusive_ptr.copy_ctor h src).1 = ⟨src.m_pointer⟩ := by
  cases hsrc : src.m_pointer <;>
    simp [intrusive_ptr.copy_ctor, intrusive_ptr.get, hsrc, intrusive_ptr.set]

/-- C9: operator== compares the raw references for identity (beq is true iff
the two slots hold the same raw reference) and operator!= is its negation;
two pointers copy-constructed from the same source compare equal; pointers
to distinct objects compare not-equal even when the two objects carry
identical internal data. -/
theorem C9_equality_is_identity (p q src : intrusive_ptr) (h : Heap) :
    (p.beq q = true ↔ p.m_pointer = q.m_pointer)
    ∧ p.bne q = !(p.beq q)
    ∧ (intrusive_ptr.copy_ctor h src).1.beq
        (intrusive_ptr.copy_ctor ((intrusive_ptr.copy_ctor h src).2) src).1 = true
    ∧ (∀ a b : Addr, ∀ o1 o2 : Obj, p.m_pointer = some a → q.m_pointer = some b →
        a ≠ b → h a = some o1 → h b = some o2 → o1.value = o2.value →
        p.bne q = true) := by
  refine ⟨?_, rfl, ?_, ?_⟩
  · simp [intrusive_ptr.beq, intrusive_ptr.get]
  · rw [copy_ctor_fst, copy_ctor_fst]
    simp [intrusive_ptr.beq, intrusive_ptr.get]
  · intro a b o1 o2 hpa hqb hab ha hb hv
    simp [intrusive_ptr.bne, intrusive_ptr.beq, intrusive_ptr.get, hpa, hqb, hab]

/-- Witness for C9 on heap40, whose two objects carry identical data: a
pointer compares equal to one with the same raw reference and not-equal to
one referring to the other, identically valued, object. -/
theorem C9_equality_witness :
    intrusive_ptr.beq ⟨some 0⟩ ⟨some 0⟩ = true
    ∧ intrusive_ptr.bne ⟨some 0⟩ ⟨some 1⟩ = true :=
  ⟨(C9_equality_is_identity ⟨some 0⟩ ⟨some 0⟩ ⟨some 0⟩ heap40).1.mpr rfl,
    (C9_equality_is_identity ⟨some 0⟩ ⟨some 1⟩ ⟨some 0⟩ heap40).2.2.2 0 1
      { m_ref_count := 1, value := 40 } { m_ref_count := 1, value := 40 }
      rfl rfl (by decide) rfl rfl rfl⟩

/-- C10: constructing from a null raw pointer, with either increment flag,
yields an empty pointer (slot null, get null, use count 0) and returns the
heap unchanged — neither add_ref nor release is called; through the same
guard in set, reset to null merely releases the previously held reference
and empties the pointer. -/
theorem C10_null_construction (h : Heap) (flag : Bool) (self : intrusive_ptr) (a : Addr)
    (hs : self.m_pointer = some a) :
    intrusive_ptr.raw_ctor h none flag = (⟨none⟩, h)
    ∧ (intrusive_ptr.raw_ctor h none flag).1.get = none
    ∧ (intrusive_ptr.raw_ctor h none flag).1.use_count h = 0
    ∧ self.reset h none flag = (⟨none⟩, intrusive_ptr_release h a) := by
  have hctor : intrusive_ptr.raw_ctor h none flag = (⟨none⟩, h) := by
    cases flag <;> rfl
  refine ⟨hctor, by rw [hctor]; rfl, by rw [hctor]; rfl, ?_⟩
  cases flag <;> simp [intrusive_ptr.reset, hs, intrusive_ptr.set]

/-- Witness for C10: a null construction over heapAB with the default flag,
and a reset to null of a pointer holding address 0. -/
theorem C10_null_construction_witness :
    intrusive_ptr.raw_ctor heapAB none true = (⟨none⟩, heapAB)
    ∧ (intrusive_ptr.raw_ctor heapAB none true).1.get = none
    ∧ (intrusive_ptr.raw_ctor heapAB none true).1.use_count heapAB = 0
    ∧ (⟨some 0⟩ : intrusive_ptr).reset heapAB none true
        = (⟨none⟩, intrusive_ptr_release heapAB 0) :=
  C10_null_construction heapAB true ⟨some 0⟩ 0 rfl

/-- C1: failing-input evaluation of the copy assignment. With p holding the
object at address 0 (counter 1) and q holding the object at address 1
(counter 1) in heap40, p = q between distinct instances stores the raw
reference of q but performs no counter operation: the counter of the object
p previously held stays 1 (the reference is never released) and the counter
of the newly shared object stays 1 (add_reference is never called), whereas
the claim requires them to become 0 and 2. Self-assignment is a no-op. -/
theorem C1_copy_assign_failing_input :
    (intrusive_ptr.copy_assign ⟨some 0⟩ ⟨some 1⟩ false heap40).1.m_pointer = some 1
    ∧ (intrusive_ptr.copy_assign ⟨some 0⟩ ⟨some 1⟩ false heap40).2 0
        = some { m_ref_count := 1, value := 40 }
    ∧ (intrusive_ptr.copy_assign ⟨some 0⟩ ⟨some 1⟩ false heap40).2 1
        = some { m_ref_count := 1, value := 40 }
    ∧ intrusive_ptr.copy_assign ⟨some 0⟩ ⟨some 0⟩ true heap40 = (⟨some 0⟩, heap40) :=
  ⟨rfl, rfl, rfl, rfl⟩

/-- C2: failing-input evaluation of swap. With p1 holding the object at
address 0 (counter 1, value 18) and p2 holding the object at address 1
(counter 2, value 81) in heapAB, p1.swap(p2) leaves both ownership slots
unchanged and instead exchanges the two pointee objects by value, embedded
counters included: the counter at address 0 becomes 2 and the one at
address 1 becomes 1, whereas the claim requires the slots to be exchanged
and both counters unchanged. -/
theorem C2_swap_failing_input :
    (intrusive_ptr.swap ⟨some 0⟩ ⟨some 1⟩ heapAB).1.m_pointer = some 0
    ∧ (intrusive_ptr.swap ⟨some 0⟩ ⟨some 1⟩ heapAB).2.1.m_pointer = some 1
    ∧ (intrusive_ptr.swap ⟨some 0⟩ ⟨some 1⟩ heapAB).2.2 0
        = some { m_ref_count := 2, value := 81 }
    ∧ (intrusive_ptr.swap ⟨some 0⟩ ⟨some 1⟩ heapAB).2.2 1
        = some { m_ref_count := 1, value := 18 } := by
  decide

/-- C3: failing-input evaluation of the move assignment. With p holding the
object at address 0 (counter 1) and q holding the object at address 1
(counter 1) in heap40, p = move(q) between distinct instances transfers the
slot (p refers to address 1, q becomes empty) but the body performs no
release: the counter of the object p previously held stays 1 and the
object is never destroyed, whereas the claim requires p to release it
before acquiring, dropping its counter to 0. Self-move is a no-op. -/
theorem C3_move_assign_failing_input :
    (intrusive_ptr.move_assign ⟨some 0⟩ ⟨some 1⟩ false heap40).1.m_pointer = some 1
    ∧ (intrusive_ptr.move_assign ⟨some 0⟩ ⟨some 1⟩ false heap40).2.1.m_pointer = none
    ∧ (intrusive_ptr.move_assign ⟨some 0⟩ ⟨some 1⟩ false heap40).2.2 0
        = some { m_ref_count := 1, value := 40 }
    ∧ (intrusive_ptr.move_assign ⟨some 0⟩ ⟨some 0⟩ true heap40).1.m_pointer = some 0 := by
  decide
